import Mathlib

/-!
Verification of the SleepGuard sleep-analysis core against its
natural-language specification.

The TypeScript sources are shallowly embedded: JavaScript numbers are
modelled as exact rationals (`ℚ`), the optional `duration?: number` field
as `Option ℚ` (`entry.duration || 0` becomes `Option.getD 0`), JavaScript
`Date` values as whole days since the Unix epoch (`ℤ`, with
1970-01-01 a Thursday), and thrown exceptions as `Except`.

`Math.sqrt` (used only to produce the `sleepVariability` field of the
metrics record) returns an irrational real in general and is therefore not
exactly representable in `ℚ`; every analyzer definition takes it as an
explicit function parameter `mathSqrt : ℚ → ℚ`, and every theorem below is
proved for all values of that parameter, so no result depends on the
behaviour of the square root.
-/

/-- One recorded sleep session (`src/models/sleep-entry.ts`).
`date` is days since the Unix epoch; `duration` is hours, `none` when the
optional field is unset. -/
structure SleepEntry where
  id : String
  date : ℤ
  startTime : String
  endTime : String
  isWeekend : Bool
  duration : Option ℚ
deriving DecidableEq

/-- The derived consistency metrics record (`src/models/sleep-analysis.ts`). -/
structure SleepConsistencyMetrics where
  weekdayConsistency : ℚ
  weekendRecovery : ℚ
  sleepDebt : ℚ
  sleepVariability : ℚ
deriving DecidableEq

/-- The `recommendationLevel` field of `SleepAnalysis`. -/
inductive RecLevel where
  | low
  | medium
  | high
deriving DecidableEq

/-- The transient analysis envelope (`src/models/sleep-analysis.ts`). -/
structure SleepAnalysis where
  metrics : SleepConsistencyMetrics
  optimalCatchupHours : ℚ
  consistencyScore : ℚ
  recommendationLevel : RecLevel
deriving DecidableEq

/-- Recommendation categories (`src/models/mental-health-insight.ts`). -/
inductive Category where
  | sleepSchedule
  | catchupSleep
  | consistency
  | overall
deriving DecidableEq

/-- The `low | medium | high` priority/impact labels. -/
inductive Level where
  | low
  | medium
  | high
deriving DecidableEq

/-- The `low | moderate | high` risk labels. -/
inductive RiskLevel where
  | low
  | moderate
  | high
deriving DecidableEq

/-- One recommendation record. -/
structure Recommendation where
  category : Category
  description : String
  priority : Level
  impact : Level
deriving DecidableEq

/-- The insight output record (`src/models/mental-health-insight.ts`). -/
structure MentalHealthInsight where
  recommendations : List Recommendation
  sleepQualityScore : ℚ
  riskLevel : RiskLevel
  improvementAreas : List String
  successFactors : List String
deriving DecidableEq

/-- Models `entry.duration || 0`: the entry's duration with the JavaScript
falsy-default, so an absent duration counts as `0`. -/
def SleepEntry.durationOrZero (e : SleepEntry) : ℚ :=
  e.duration.getD 0

/-- Embedding of `SleepAnalyzer.analyzeSleepConsistency` (src/unnamed/part_001, the
per-entry-deficit variant). Each `reduce` of the source is a `foldl`;
`mathSqrt` stands for `Math.sqrt`. -/
def SleepAnalyzer.analyzeSleepConsistency (mathSqrt : ℚ → ℚ)
    (entries : List SleepEntry) : SleepConsistencyMetrics :=
  if entries.length = 0 then
    { weekdayConsistency := 0, weekendRecovery := 0, sleepDebt := 0, sleepVariability := 0 }
  else
    let weekdayEntries := entries.filter (fun e => !e.isWeekend)
    let weekendEntries := entries.filter (fun e => e.isWeekend)
    let weekdayConsistency : ℚ :=
      if weekdayEntries.length > 0 then
        let weekdayDurations := weekdayEntries.map SleepEntry.durationOrZero
        let avgWeekdayDuration :=
          weekdayDurations.foldl (fun a b => a + b) 0 / (weekdayDurations.length : ℚ)
        let consistentEntries :=
          (weekdayDurations.filter (fun duration => |duration - avgWeekdayDuration| ≤ 1)).length
        ((consistentEntries : ℚ) / (weekdayEntries.length : ℚ)) * 100
      else 0
    let weekendRecovery : ℚ :=
      weekendEntries.foldl (fun total e => total + e.durationOrZero) 0
    let idealSleepDuration : ℚ := 8
    let sleepDebt : ℚ :=
      entries.foldl (fun total e => total + max 0 (idealSleepDuration - e.durationOrZero)) 0
    let sleepVariability : ℚ :=
      if weekdayEntries.length > 1 then
        let durations := weekdayEntries.map SleepEntry.durationOrZero
        let mean := durations.foldl (fun a b => a + b) 0 / (durations.length : ℚ)
        let variance :=
          durations.foldl (fun sq n => sq + (n - mean) ^ 2) 0 / ((durations.length : ℚ) - 1)
        mathSqrt variance
      else 0
    { weekdayConsistency := weekdayConsistency
    , weekendRecovery := weekendRecovery
    , sleepDebt := sleepDebt
    , sleepVariability := sleepVariability }

/-- Embedding of `SleepAnalyzer.analyzeSleepConsistency` as it appears a second time in
`src/src/services/report-generator.ts` (lines 86-140): identical except
that `sleepDebt` is the aggregate `max(0, 8·n − totalSleep)` instead of the
per-entry deficit sum. -/
def SleepAnalyzerAlt.analyzeSleepConsistency (mathSqrt : ℚ → ℚ)
    (entries : List SleepEntry) : SleepConsistencyMetrics :=
  if entries.length = 0 then
    { weekdayConsistency := 0, weekendRecovery := 0, sleepDebt := 0, sleepVariability := 0 }
  else
    let weekdayEntries := entries.filter (fun e => !e.isWeekend)
    let weekendEntries := entries.filter (fun e => e.isWeekend)
    let weekdayConsistency : ℚ :=
      if weekdayEntries.length > 0 then
        let weekdayDurations := weekdayEntries.map SleepEntry.durationOrZero
        let avgWeekdayDuration :=
          weekdayDurations.foldl (fun a b => a + b) 0 / (weekdayDurations.length : ℚ)
        let consistentEntries :=
          (weekdayDurations.filter (fun duration => |duration - avgWeekdayDuration| ≤ 1)).length
        ((consistentEntries : ℚ) / (weekdayEntries.length : ℚ)) * 100
      else 0
    let weekendRecovery : ℚ :=
      weekendEntries.foldl (fun total e => total + e.durationOrZero) 0
    let idealSleepDuration : ℚ := 8
    let totalSleep : ℚ :=
      entries.foldl (fun total e => total + e.durationOrZero) 0
    let idealSleep : ℚ := (entries.length : ℚ) * idealSleepDuration
    let sleepDebt : ℚ := max 0 (idealSleep - totalSleep)
    let sleepVariability : ℚ :=
      if weekdayEntries.length > 1 then
        let durations := weekdayEntries.map SleepEntry.durationOrZero
        let mean := durations.foldl (fun a b => a + b) 0 / (durations.length : ℚ)
        let variance :=
          durations.foldl (fun sq n => sq + (n - mean) ^ 2) 0 / ((durations.length : ℚ) - 1)
        mathSqrt variance
      else 0
    { weekdayConsistency := weekdayConsistency
    , weekendRecovery := weekendRecovery
    , sleepDebt := sleepDebt
    , sleepVariability := sleepVariability }

/-- Embedding of `SleepAnalyzer.calculateOptimalCatchup` (src/unnamed/part_001 lines 70-83). -/
def SleepAnalyzer.calculateOptimalCatchup (entries : List SleepEntry)
    (targetSleepDuration : ℚ) : ℚ :=
  let weekdayEntries := entries.filter (fun e => !e.isWeekend)
  if weekdayEntries.length = 0 then 0
  else
    let totalWeekdaySleep : ℚ :=
      weekdayEntries.foldl (fun s e => s + e.durationOrZero) 0
    let idealWeekdaySleep : ℚ := (weekdayEntries.length : ℚ) * targetSleepDuration
    let sleepDeficit := max 0 (idealWeekdaySleep - totalWeekdaySleep)
    min sleepDeficit 4

/-- JavaScript `Math.round`: round half toward positive infinity. -/
def jsRound (q : ℚ) : ℚ :=
  ((⌊q + 1 / 2⌋ : ℤ) : ℚ)

/-- Body of `SleepAnalyzer.calculateSleepQualityScore` after the metrics
have been computed (src/unnamed/part_001 lines 94-109), factored out so the
score's dependence on each metric can be stated. The successive
reassignments of `baseScore` in the source become successive `let`s. -/
def SleepAnalyzer.qualityScoreFromMetrics (m : SleepConsistencyMetrics) : ℚ :=
  let baseScore := m.weekdayConsistency
  let variabilityPenalty := min (m.sleepVariability * 5) 30
  let baseScore1 := max 0 (baseScore - variabilityPenalty)
  let debtPenalty := min (m.sleepDebt * 5) 40
  let baseScore2 := max 0 (baseScore1 - debtPenalty)
  jsRound (min 100 (max 0 baseScore2))

/-- Embedding of `SleepAnalyzer.calculateSleepQualityScore` (src/unnamed/part_001
lines 89-110). -/
def SleepAnalyzer.calculateSleepQualityScore (mathSqrt : ℚ → ℚ)
    (entries : List SleepEntry) : ℚ :=
  if entries.length = 0 then 0
  else
    SleepAnalyzer.qualityScoreFromMetrics
      (SleepAnalyzer.analyzeSleepConsistency mathSqrt entries)

/-- Embedding of `SleepAnalyzer.generateMentalHealthInsights` (src/unnamed/part_001
lines 117-195, the consistencyScore-threshold variant). Each push onto the
three mutable arrays becomes one list per check, concatenated in source
order. -/
def SleepAnalyzer.generateMentalHealthInsights (analysis : SleepAnalysis)
    (_entries : List SleepEntry) : MentalHealthInsight :=
  let consistencyCheck :=
    if analysis.consistencyScore < 60 then
      ( [({ category := Category.sleepSchedule
          , description := "Your sleep schedule shows low consistency. Try to maintain regular sleep and wake times."
          , priority := Level.high, impact := Level.high } : Recommendation)]
      , ["Inconsistent sleep schedule"], ([] : List String))
    else ([], [], ["Good sleep schedule consistency"])
  let debtCheck :=
    if analysis.metrics.sleepDebt > 2 then
      ( [({ category := Category.catchupSleep
          , description := "You have accumulated significant sleep debt. Consider getting more sleep on weekends."
          , priority := Level.medium, impact := Level.medium } : Recommendation)]
      , ["Sleep debt accumulation"], ([] : List String))
    else if analysis.metrics.sleepDebt > 0 then
      ( [({ category := Category.catchupSleep
          , description := "You have some sleep debt. Aim to recover a bit on weekends."
          , priority := Level.low, impact := Level.medium } : Recommendation)]
      , [], [])
    else ([], [], ["Minimal sleep debt"])
  let recoveryCheck :=
    if analysis.metrics.weekendRecovery < 2 then
      ( [({ category := Category.catchupSleep
          , description := "Consider increasing your weekend recovery sleep to help offset weekday sleep loss."
          , priority := Level.medium, impact := Level.medium } : Recommendation)]
      , ([] : List String), ([] : List String))
    else ([], [], ["Adequate weekend recovery sleep"])
  let variabilityCheck :=
    if analysis.metrics.sleepVariability > 3 / 2 then
      ( [({ category := Category.consistency
          , description := "Your sleep times vary significantly. Try to keep more consistent sleep/wake times."
          , priority := Level.medium, impact := Level.medium } : Recommendation)]
      , ["Sleep time variability"], ([] : List String))
    else ([], [], ["Consistent sleep timing"])
  let riskLevel : RiskLevel :=
    if analysis.consistencyScore < 50 ∨ analysis.metrics.sleepDebt > 4 then RiskLevel.high
    else if analysis.consistencyScore < 70 ∨ analysis.metrics.sleepDebt > 2 then RiskLevel.moderate
    else RiskLevel.low
  { recommendations :=
      consistencyCheck.1 ++ debtCheck.1 ++ recoveryCheck.1 ++ variabilityCheck.1
  , sleepQualityScore := analysis.consistencyScore
  , riskLevel := riskLevel
  , improvementAreas :=
      consistencyCheck.2.1 ++ debtCheck.2.1 ++ recoveryCheck.2.1 ++ variabilityCheck.2.1
  , successFactors :=
      consistencyCheck.2.2 ++ debtCheck.2.2 ++ recoveryCheck.2.2 ++ variabilityCheck.2.2 }

/-- Value of a list of decimal digit characters (most significant first). -/
def digitsToNat (cs : List Char) : ℕ :=
  cs.foldl (fun a c => 10 * a + (c.toNat - 48)) 0

/-- JavaScript `String.prototype.split` with a single-character separator,
on the underlying character list: `"".split(sep)` is `[""]`, and
consecutive separators produce empty pieces, exactly as in JavaScript. -/
def splitOnChar (sep : Char) : List Char → List (List Char)
  | [] => [[]]
  | c :: cs =>
    if c = sep then [] :: splitOnChar sep cs
    else
      match splitOnChar sep cs with
      | [] => [[c]]
      | h :: t => (c :: h) :: t

/-- JavaScript `s.split(sep)` for a one-character separator, as strings. -/
def jsSplit (s : String) (sep : Char) : List String :=
  (splitOnChar sep s.data).map String.mk

/-- Whitespace trimming on the underlying character list (the trim JavaScript
applies to the argument of `Number`). -/
def trimChars (cs : List Char) : List Char :=
  ((cs.dropWhile Char.isWhitespace).reverse.dropWhile Char.isWhitespace).reverse

/-- Exponent part of a JavaScript decimal numeric literal: either the end of
the string, or `e`/`E` with an optional sign and at least one digit. -/
def jsExpTail (q : ℚ) (cs : List Char) : Option ℚ :=
  let signAndRest : ℤ × List Char :=
    match cs with
    | '+' :: r => (1, r)
    | '-' :: r => (-1, r)
    | r => (1, r)
  let ds := signAndRest.2.takeWhile Char.isDigit
  let rest := signAndRest.2.dropWhile Char.isDigit
  if ds = [] ∨ rest ≠ [] then none
  else some (q * (10 : ℚ) ^ (signAndRest.1 * (digitsToNat ds : ℤ)))

/-- The `e`/`E` exponent dispatcher for `jsNumber`. -/
def jsExpPart (q : ℚ) : List Char → Option ℚ
  | [] => some q
  | 'e' :: rest => jsExpTail q rest
  | 'E' :: rest => jsExpTail q rest
  | _ => none

/-- Unsigned decimal literal: `digits`, `digits.digits`, `.digits` or
`digits.`, followed by an optional exponent. -/
def jsDecimalTail (cs : List Char) : Option ℚ :=
  let ip := cs.takeWhile Char.isDigit
  let r1 := cs.dropWhile Char.isDigit
  match r1 with
  | '.' :: r2 =>
    let fp := r2.takeWhile Char.isDigit
    let r3 := r2.dropWhile Char.isDigit
    if ip = [] ∧ fp = [] then none
    else jsExpPart ((digitsToNat ip : ℚ) + (digitsToNat fp : ℚ) / (10 : ℚ) ^ fp.length) r3
  | _ => if ip = [] then none else jsExpPart (digitsToNat ip : ℚ) r1

/-- JavaScript `Number(string)` on the decimal-literal fragment of its
grammar: whitespace is trimmed, the empty string is `0`, and a string that
is not a signed decimal literal is `NaN` (`none`). The hexadecimal, octal,
binary and `Infinity` forms of the full grammar never arise from the time
strings this model is applied to and are mapped to `NaN` here. -/
def jsNumber (s : String) : Option ℚ :=
  match trimChars s.data with
  | [] => some 0
  | '+' :: rest => jsDecimalTail rest
  | '-' :: rest => (jsDecimalTail rest).map Neg.neg
  | cs => jsDecimalTail cs

/-- JavaScript `String.prototype.padStart(targetLength, padChar)`. -/
def padStart (s : String) (targetLength : ℕ) (padChar : Char) : String :=
  String.mk (List.replicate (targetLength - s.length) padChar) ++ s

/-- JavaScript number-to-string conversion for the values reachable here:
`NaN` prints as `"NaN"`, integers print without a decimal point, and
rationals with a terminating decimal expansion print their shortest
expansion. (A non-terminating expansion, which no verified input produces,
falls back to a fraction rendering; exact shortest-round-trip float
printing is outside this model.) -/
def jsNumToString (x : Option ℚ) : String :=
  match x with
  | none => "NaN"
  | some q =>
    if q.den = 1 then toString q.num
    else
      match (List.range (q.den + 1)).find? (fun k => q.den ∣ 10 ^ k) with
      | some k =>
        let scaled : ℤ := q.num * ((10 ^ k : ℕ) : ℤ) / (q.den : ℤ)
        let sign := if q.num < 0 then "-" else ""
        let digits := (padStart (toString scaled.natAbs) (k + 1) '0').data
        sign ++ String.mk (digits.take (digits.length - k)) ++ "." ++
          String.mk (digits.drop (digits.length - k))
      | none => toString q.num ++ "/" ++ toString q.den

/-- NaN-propagating addition on JavaScript numbers. -/
def jsAdd : Option ℚ → Option ℚ → Option ℚ
  | some a, some b => some (a + b)
  | _, _ => none

/-- NaN-propagating subtraction on JavaScript numbers. -/
def jsSub : Option ℚ → Option ℚ → Option ℚ
  | some a, some b => some (a - b)
  | _, _ => none

/-- NaN-propagating multiplication on JavaScript numbers. -/
def jsMul : Option ℚ → Option ℚ → Option ℚ
  | some a, some b => some (a * b)
  | _, _ => none

/-- Division by a nonzero finite JavaScript number, NaN-propagating. -/
def jsDiv : Option ℚ → Option ℚ → Option ℚ
  | some a, some b => some (a / b)
  | _, _ => none

/-- JavaScript `<`: any comparison involving NaN is false. -/
def jsLt : Option ℚ → Option ℚ → Bool
  | some a, some b => decide (a < b)
  | _, _ => false

/-- JavaScript strict equality of a number against a literal: false for NaN. -/
def jsStrictEq (x : Option ℚ) (c : ℚ) : Bool :=
  match x with
  | some a => decide (a = c)
  | none => false

/-- A thrown JavaScript exception: `new Error(msg)` or a `TypeError`. -/
inductive JsError where
  | typeError (msg : String)
  | error (msg : String)
deriving DecidableEq

/-- Decidable equality of `Except` results, so concrete outcomes of the
fallible time functions can be checked by `decide`. -/
instance exceptDecEq {ε α : Type} [DecidableEq ε] [DecidableEq α] :
    DecidableEq (Except ε α) := fun x y =>
  match x, y with
  | Except.ok a, Except.ok b =>
    if h : a = b then Decidable.isTrue (by rw [h])
    else Decidable.isFalse (by intro he; cases he; exact h rfl)
  | Except.ok _, Except.error _ => Decidable.isFalse (by intro h; cases h)
  | Except.error _, Except.ok _ => Decidable.isFalse (by intro h; cases h)
  | Except.error a, Except.error b =>
    if h : a = b then Decidable.isTrue (by rw [h])
    else Decidable.isFalse (by intro he; cases he; exact h rfl)

/-- JavaScript `Date.prototype.getDay` on a date modelled as whole days
since the Unix epoch: 0 is Sunday and 1970-01-01 (day 0) was a Thursday. -/
def DateUtils.getDay (d : ℤ) : ℤ :=
  (d + 4) % 7

/-- Embedding of `getStartOfWeek` (src/src/utils/date-utils.ts lines 5-11).
`d.setDate(diff)` with `diff = d.getDate() - day + (day === 0 ? -6 : 1)`
moves the date by `diff - d.getDate()` days (JavaScript normalises
day-of-month overflow across months), i.e. by `-day + (day = 0 ? -6 : 1)`. -/
def DateUtils.getStartOfWeek (date : ℤ) : ℤ :=
  let day := DateUtils.getDay date
  date - day + (if day = 0 then -6 else 1)

/-- Embedding of `getEndOfWeek` (src/src/utils/date-utils.ts lines 17-23), with
`diff = d.getDate() - day + 6`, i.e. a shift by `-day + 6` days. -/
def DateUtils.getEndOfWeek (date : ℤ) : ℤ :=
  let day := DateUtils.getDay date
  date - day + 6

/-- Embedding of `formatTimeTo24Hour` (src/src/utils/date-utils.ts lines 29-40).
`timeString.split(' ')` always yields at least one element, so `time` is a
string and `period` is possibly-undefined (`Option`); `time.split(':')`
likewise always yields a first element, so `hours` is a number (possibly
NaN) while `minutes` is undefined when the string has no colon — in which
case `minutes.toString()` throws a TypeError. -/
def DateUtils.formatTimeTo24Hour (timeString : String) : Except JsError String :=
  let parts := jsSplit timeString ' '
  let period : Option String := parts.get? 1
  let nums := (jsSplit (parts.headD "") ':').map jsNumber
  let hours : Option ℚ := (nums.get? 0).getD none
  let hours : Option ℚ :=
    if period = some "PM" ∧ ¬ jsStrictEq hours 12 then jsAdd hours (some 12)
    else if period = some "AM" ∧ jsStrictEq hours 12 then some 0
    else hours
  match nums.get? 1 with
  | none => Except.error (JsError.typeError "minutes is undefined")
  | some minutes =>
    Except.ok (padStart (jsNumToString hours) 2 '0' ++ ":" ++ padStart (jsNumToString minutes) 2 '0')

/-- Embedding of `calculateDuration` (src/src/utils/date-utils.ts lines 47-65). The
returned JavaScript number is `none` when it is NaN. An out-of-range
index in the destructuring is undefined, which behaves like NaN in the
subsequent arithmetic. -/
def DateUtils.calculateDuration (startTime endTime : String) : Except JsError (Option ℚ) :=
  match DateUtils.formatTimeTo24Hour startTime with
  | Except.error e => Except.error e
  | Except.ok start24 =>
    match DateUtils.formatTimeTo24Hour endTime with
    | Except.error e => Except.error e
    | Except.ok end24 =>
      let sNums := (jsSplit start24 ':').map jsNumber
      let eNums := (jsSplit end24 ':').map jsNumber
      let startTotalMinutes :=
        jsAdd (jsMul ((sNums.get? 0).getD none) (some 60)) ((sNums.get? 1).getD none)
      let endTotalMinutes :=
        jsAdd (jsMul ((eNums.get? 0).getD none) (some 60)) ((eNums.get? 1).getD none)
      let durationMinutes := jsSub endTotalMinutes startTotalMinutes
      let durationMinutes :=
        if jsLt durationMinutes (some 0) then jsAdd durationMinutes (some 1440)
        else durationMinutes
      Except.ok (jsDiv durationMinutes (some 60))

/-- Matcher for the regular expression
`/^(\d{1,2}):(\d{2})\s*(AM|PM)$/i` of src/unnamed/part_000: on success,
returns the hour digits' value, the minute digits as text (capture 2), and
the normalised `"AM"`/`"PM"` marker. Greedy digit runs are maximal runs; a
run longer than permitted cannot match under backtracking either, because
the character after a shorter run would then be a digit where `:`, `\s` or
`A`/`P` is required. -/
def DateUtilsAlt.matchTimeAmPm (cs : List Char) : Option (ℕ × String × String) :=
  let hd := cs.takeWhile Char.isDigit
  let r1 := cs.dropWhile Char.isDigit
  if hd.length = 0 ∨ hd.length > 2 then none
  else
    match r1 with
    | ':' :: r2 =>
      let md := r2.takeWhile Char.isDigit
      let r3 := r2.dropWhile Char.isDigit
      if md.length ≠ 2 then none
      else
        match r3.dropWhile Char.isWhitespace with
        | [a, m] =>
          if (a = 'A' ∨ a = 'a' ∨ a = 'P' ∨ a = 'p') ∧ (m = 'M' ∨ m = 'm') then
            some (digitsToNat hd, String.mk md, if a = 'A' ∨ a = 'a' then "AM" else "PM")
          else none
        | _ => none
    | _ => none

/-- Embedding of `formatTimeTo24Hour` (src/unnamed/part_000 lines 29-48): throws
`Error('Invalid time format. Expected HH:mm AM/PM')` whenever its regular
expression does not match — note the `AM`/`PM` marker is mandatory there,
so a plain 24-hour `HH:mm` string is rejected too. -/
def DateUtilsAlt.formatTimeTo24Hour (timeString : String) : Except JsError String :=
  match DateUtilsAlt.matchTimeAmPm timeString.data with
  | none => Except.error (JsError.error "Invalid time format. Expected HH:mm AM/PM")
  | some (h, minutesText, ampm) =>
    let hours := if ampm = "AM" ∧ h = 12 then 0
                 else if ampm = "PM" ∧ h ≠ 12 then h + 12
                 else h
    Except.ok (padStart (toString hours) 2 '0' ++ ":" ++ minutesText)

/-- Modelled from the spec: the `HH:MM` 24-hour time-string grammar named
by the claim about duration parsing (one or two hour digits with value at
most 23, a colon, and exactly two minute digits with value at most 59). -/
def matchesTime24 (s : String) : Bool :=
  let cs := s.data
  let hd := cs.takeWhile Char.isDigit
  let r1 := cs.dropWhile Char.isDigit
  decide (1 ≤ hd.length) && decide (hd.length ≤ 2) && decide (digitsToNat hd ≤ 23) &&
    (match r1 with
     | ':' :: r2 =>
       let md := r2.takeWhile Char.isDigit
       let r3 := r2.dropWhile Char.isDigit
       decide (md.length = 2) && decide (digitsToNat md ≤ 59) && decide (r3 = [])
     | _ => false)

/-- JavaScript `Number.prototype.toFixed(1)`: round to one decimal place,
ties toward positive infinity. -/
def toFixed1 (q : ℚ) : String :=
  let n : ℤ := ⌊q * 10 + 1 / 2⌋
  let sign := if n < 0 then "-" else ""
  let digits := (padStart (toString n.natAbs) 2 '0').data
  sign ++ String.mk (digits.take (digits.length - 1)) ++ "." ++
    String.mk (digits.drop (digits.length - 1))

/-- The `period` field of a weekly report. -/
structure WeeklyReportPeriod where
  startDate : ℤ
  endDate : ℤ
deriving DecidableEq

/-- The `keyMetrics` field of a weekly report. -/
structure WeeklyReportKeyMetrics where
  averageSleepDuration : ℚ
  consistencyScore : ℚ
  catchupSleepHours : ℚ
deriving DecidableEq

/-- The `visualizations` field of a weekly report. -/
structure WeeklyReportVisualizations where
  sleepPatternChart : String
  consistencyChart : String
deriving DecidableEq

/-- The weekly report record (`src/src/services/report-generator.ts`). -/
structure WeeklyReport where
  period : WeeklyReportPeriod
  summary : String
  keyMetrics : WeeklyReportKeyMetrics
  trends : List String
  visualizations : WeeklyReportVisualizations
deriving DecidableEq

/-- Embedding of `ReportGenerator.generateWeeklyReport`
(src/src/services/report-generator.ts lines 28-74). -/
def ReportGenerator.generateWeeklyReport (entries : List SleepEntry)
    (startDate : ℤ) : WeeklyReport :=
  let endDate := DateUtils.getEndOfWeek startDate
  let totalDuration : ℚ := entries.foldl (fun s e => s + e.durationOrZero) 0
  let averageSleepDuration : ℚ :=
    if entries.length > 0 then totalDuration / (entries.length : ℚ) else 0
  let consistencyScore : ℚ := 75
  let weekendEntries := entries.filter (fun e => e.isWeekend)
  let catchupSleepHours : ℚ := weekendEntries.foldl (fun s e => s + e.durationOrZero) 0
  let summary :=
    "Weekly Sleep Summary: You averaged " ++ toFixed1 averageSleepDuration ++
      " hours of sleep this week, with " ++ toFixed1 catchupSleepHours ++
      " hours of weekend recovery sleep."
  { period := { startDate := startDate, endDate := endDate }
  , summary := summary
  , keyMetrics :=
      { averageSleepDuration := averageSleepDuration
      , consistencyScore := consistencyScore
      , catchupSleepHours := catchupSleepHours }
  , trends :=
      [ "Sleep duration shows moderate consistency"
      , "Weekend recovery sleep is within recommended range"
      , "Overall sleep pattern suggests room for improvement" ]
  , visualizations :=
      { sleepPatternChart := "Chart: Sleep Duration Over Time"
      , consistencyChart := "Chart: Sleep Schedule Consistency" } }

/-- Insertion step of the by-date sort used to model
`[...entries].sort((a, b) => a.date.getTime() - b.date.getTime())`. -/
def SleepTracker.insertByDate (e : SleepEntry) : List SleepEntry → List SleepEntry
  | [] => [e]
  | x :: xs =>
    if e.date ≤ x.date then e :: x :: xs else x :: SleepTracker.insertByDate e xs

/-- Sorting a list of entries by ascending date. -/
def SleepTracker.sortByDate : List SleepEntry → List SleepEntry
  | [] => []
  | x :: xs => SleepTracker.insertByDate x (SleepTracker.sortByDate xs)

/-- Embedding of `SleepTracker.getSleepEntries` with no range arguments
(src/src/sleep-tracker.ts lines 55-67): both filters are skipped and a
copy of the stored entries is returned sorted by ascending date. -/
def SleepTracker.getSleepEntries (sleepEntries : List SleepEntry) : List SleepEntry :=
  SleepTracker.sortByDate sleepEntries

/-- Embedding of `SleepTracker.getHealthInsights` (src/src/sleep-tracker.ts lines
69-93), as a function of the stored entry list and the configured
`targetSleepDuration` (the `|| 8` falsy-default applies when that
configuration value is `0`). The constructed analysis hardcodes
`consistencyScore: 0` and `recommendationLevel: 'low'` exactly as the
source does. -/
def SleepTracker.getHealthInsights (mathSqrt : ℚ → ℚ)
    (configTargetSleepDuration : ℚ) (sleepEntries : List SleepEntry) : MentalHealthInsight :=
  let allEntries := SleepTracker.getSleepEntries sleepEntries
  if allEntries.length = 0 then
    { recommendations := [], sleepQualityScore := 0, riskLevel := RiskLevel.low
    , improvementAreas := [], successFactors := [] }
  else
    let analysis : SleepAnalysis :=
      { metrics := SleepAnalyzer.analyzeSleepConsistency mathSqrt allEntries
      , optimalCatchupHours :=
          SleepAnalyzer.calculateOptimalCatchup allEntries
            (if configTargetSleepDuration = 0 then 8 else configTargetSleepDuration)
      , consistencyScore := 0
      , recommendationLevel := RecLevel.low }
    SleepAnalyzer.generateMentalHealthInsights analysis allEntries

/-- A left fold accumulating `f` over a list equals the initial value plus
the sum of the mapped list (the `reduce((acc, e) => acc + f(e), 0)` pattern). -/
theorem foldl_add_map_sum (f : SleepEntry → ℚ) (l : List SleepEntry) (init : ℚ) :
    l.foldl (fun t e => t + f e) init = init + (l.map f).sum := by
  induction l generalizing init with
  | nil => simp
  | cons x xs ih => simp [ih, add_assoc]

/-- Claim C2: for every entry list, the `sleepDebt` field computed by
`analyzeSleepConsistency` equals the sum over all entries (weekday and
weekend alike) of `max(0, 8 − duration)`, an absent duration contributing
the full 8-hour deficit; the per-entry `max` makes the deficit
non-cancelling. -/
theorem sleepDebt_eq_sum_of_deficits (mathSqrt : ℚ → ℚ) (entries : List SleepEntry) :
    (SleepAnalyzer.analyzeSleepConsistency mathSqrt entries).sleepDebt
      = (entries.map (fun e => max 0 (8 - e.duration.getD 0))).sum := by
  unfold SleepAnalyzer.analyzeSleepConsistency
  by_cases h : entries.length = 0
  · rw [List.length_eq_zero] at h
    simp [h]
  · rw [if_neg (by simpa using h)]
    simp [SleepEntry.durationOrZero, foldl_add_map_sum]

/-- Claim C1: for every entry list and any values of the analysis fields
the generator does not read, `generateMentalHealthInsights` applied to an
analysis with `consistencyScore = 55`, `sleepDebt = 3`,
`weekendRecovery = 1`, `sleepVariability = 2` produces exactly four
recommendations (one per failing check) and risk level `moderate`. -/
theorem generateInsights_four_recs_moderate (entries : List SleepEntry)
    (wc och : ℚ) (rl : RecLevel) :
    (SleepAnalyzer.generateMentalHealthInsights
        ⟨⟨wc, 1, 3, 2⟩, och, 55, rl⟩ entries).recommendations.length = 4 ∧
      (SleepAnalyzer.generateMentalHealthInsights
        ⟨⟨wc, 1, 3, 2⟩, och, 55, rl⟩ entries).riskLevel = RiskLevel.moderate := by
  norm_num [SleepAnalyzer.generateMentalHealthInsights]

/-- Claim C3: the per-entry-deficit and aggregate formulations of
`sleepDebt` are not equivalent: whatever `Math.sqrt` does, a list mixing
an entry above 8 hours with one below 8 hours separates them. -/
theorem sleepDebt_formulations_inequivalent (f g : ℚ → ℚ) :
    ∃ entries : List SleepEntry,
      (SleepAnalyzer.analyzeSleepConsistency f entries).sleepDebt ≠
        (SleepAnalyzerAlt.analyzeSleepConsistency g entries).sleepDebt := by
  refine ⟨[⟨"a", 0, "", "", false, some 9⟩, ⟨"b", 1, "", "", false, some 7⟩], ?_⟩
  norm_num [SleepAnalyzer.analyzeSleepConsistency, SleepAnalyzerAlt.analyzeSleepConsistency,
    SleepEntry.durationOrZero]

/-- Claim C6: `calculateOptimalCatchup` returns `0` when there are no
weekday entries, otherwise `min(4, max(0, weekdayCount · targetDuration −
totalWeekdaySleep))`; in all cases the result lies in `[0, 4]`. -/
theorem calculateOptimalCatchup_spec (entries : List SleepEntry) (targetDuration : ℚ) :
    (SleepAnalyzer.calculateOptimalCatchup entries targetDuration =
      if (entries.filter (fun e => !e.isWeekend)).length = 0 then 0
      else
        min 4 (max 0 (((entries.filter (fun e => !e.isWeekend)).length : ℚ) * targetDuration -
          ((entries.filter (fun e => !e.isWeekend)).map (fun e => e.duration.getD 0)).sum)))
    ∧ 0 ≤ SleepAnalyzer.calculateOptimalCatchup entries targetDuration
    ∧ SleepAnalyzer.calculateOptimalCatchup entries targetDuration ≤ 4 := by
  unfold SleepAnalyzer.calculateOptimalCatchup
  by_cases h : (entries.filter (fun e => !e.isWeekend)).length = 0
  · simp [h]
  · rw [if_neg h, if_neg h]
    refine ⟨?_, ?_, min_le_right _ _⟩
    · rw [min_comm]
      simp [foldl_add_map_sum, SleepEntry.durationOrZero]
    · exact le_min (le_max_left _ _) (by norm_num)

/-- Claim C4: `calculateSleepQualityScore` returns `0` on empty input and
otherwise the rounded clamp of: the metrics' `weekdayConsistency`, minus
the variability penalty `min(sleepVariability·5, 30)` clamped at 0, minus
the debt penalty `min(sleepDebt·5, 40)` clamped at 0, clamped to
`[0, 100]` — the two penalties applying independently. -/
theorem calculateSleepQualityScore_spec (mathSqrt : ℚ → ℚ) (entries : List SleepEntry) :
    SleepAnalyzer.calculateSleepQualityScore mathSqrt entries =
      if entries.length = 0 then 0
      else
        jsRound (min 100 (max 0 (max 0 (max 0
          ((SleepAnalyzer.analyzeSleepConsistency mathSqrt entries).weekdayConsistency -
            min ((SleepAnalyzer.analyzeSleepConsistency mathSqrt entries).sleepVariability * 5) 30) -
          min ((SleepAnalyzer.analyzeSleepConsistency mathSqrt entries).sleepDebt * 5) 40)))) := by
  unfold SleepAnalyzer.calculateSleepQualityScore SleepAnalyzer.qualityScoreFromMetrics
  by_cases h : entries.length = 0 <;> simp [h]

/-- Rounding is monotone. -/
theorem jsRound_mono {a b : ℚ} (h : a ≤ b) : jsRound a ≤ jsRound b := by
  unfold jsRound
  exact_mod_cast Int.floor_le_floor (by linarith)

/-- Claim C5: the quality-score computation is monotonically non-increasing
in each penalty input — raising `sleepVariability` (with
`weekdayConsistency`, `weekendRecovery` and `sleepDebt` fixed) never raises
the score, and likewise for `sleepDebt`. -/
theorem qualityScore_antitone_in_penalties :
    (∀ wc wr d v₁ v₂ : ℚ, v₁ ≤ v₂ →
      SleepAnalyzer.qualityScoreFromMetrics ⟨wc, wr, d, v₂⟩ ≤
        SleepAnalyzer.qualityScoreFromMetrics ⟨wc, wr, d, v₁⟩) ∧
    (∀ wc wr v d₁ d₂ : ℚ, d₁ ≤ d₂ →
      SleepAnalyzer.qualityScoreFromMetrics ⟨wc, wr, d₂, v⟩ ≤
        SleepAnalyzer.qualityScoreFromMetrics ⟨wc, wr, d₁, v⟩) := by
  constructor
  · intro wc wr d v₁ v₂ h
    unfold SleepAnalyzer.qualityScoreFromMetrics
    apply jsRound_mono
    gcongr
  · intro wc wr v d₁ d₂ h
    unfold SleepAnalyzer.qualityScoreFromMetrics
    apply jsRound_mono
    gcongr

/-- Witness for the monotonicity claim at concrete metric values. -/
theorem qualityScore_antitone_witness :
    SleepAnalyzer.qualityScoreFromMetrics ⟨80, 0, 3, 2⟩ ≤
        SleepAnalyzer.qualityScoreFromMetrics ⟨80, 0, 3, 1⟩ ∧
      SleepAnalyzer.qualityScoreFromMetrics ⟨80, 0, 3, 1⟩ ≤
        SleepAnalyzer.qualityScoreFromMetrics ⟨80, 0, 2, 1⟩ :=
  ⟨qualityScore_antitone_in_penalties.1 80 0 3 1 2 (by norm_num),
   qualityScore_antitone_in_penalties.2 80 0 1 2 3 (by norm_num)⟩

/-- Claim C7 counterexample: at the concrete date 0 (1970-01-01), the
computed week start is day -3 (Monday 1969-12-29), but `getEndOfWeek` of
that Monday is day 2 — five days later, not six. -/
theorem endOfWeek_not_six_days_after :
    ¬ (DateUtils.getEndOfWeek (DateUtils.getStartOfWeek 0) =
        DateUtils.getStartOfWeek 0 + 6) := by
  decide

/-- The computed week start always falls on a Monday (`getDay = 1`). -/
theorem getDay_getStartOfWeek (d : ℤ) :
    DateUtils.getDay (DateUtils.getStartOfWeek d) = 1 := by
  unfold DateUtils.getStartOfWeek DateUtils.getDay
  by_cases h : (d + 4) % 7 = 0
  · simp only [if_pos h]
    omega
  · simp only [if_neg h]
    omega

/-- Claim C7 (amended): `endOfWeek(startOfWeek(d))` is exactly five days
after `startOfWeek(d)` — the Saturday closing the Sunday-start week of the
computed Monday — while `startOfWeek` applied to a Sunday does return the
Monday six days earlier. -/
theorem week_bounds_spec (d : ℤ) :
    DateUtils.getEndOfWeek (DateUtils.getStartOfWeek d) = DateUtils.getStartOfWeek d + 5 ∧
      (DateUtils.getDay d = 0 → DateUtils.getStartOfWeek d = d - 6) := by
  constructor
  · have h1 := getDay_getStartOfWeek d
    unfold DateUtils.getEndOfWeek
    rw [h1]
    show DateUtils.getStartOfWeek d - 1 + 6 = DateUtils.getStartOfWeek d + 5
    omega
  · intro h
    unfold DateUtils.getDay at h
    unfold DateUtils.getStartOfWeek DateUtils.getDay
    rw [h]
    show d - 0 + -6 = d - 6
    omega

/-- Witness for the amended week-bounds claim at day 3 (Sunday 1970-01-04). -/
theorem week_bounds_spec_witness :
    DateUtils.getEndOfWeek (DateUtils.getStartOfWeek 3) = DateUtils.getStartOfWeek 3 + 5 ∧
      DateUtils.getStartOfWeek 3 = 3 - 6 :=
  ⟨(week_bounds_spec 3).1, (week_bounds_spec 3).2 (by decide)⟩

/-- Claim C9 counterexample: on the empty week window the report carries
`consistencyScore = 75` although the facade's own computed quality score
for that window is `0` — the aggregator substitutes its own constant. -/
theorem report_consistencyScore_not_facade_score :
    (ReportGenerator.generateWeeklyReport [] 0).keyMetrics.consistencyScore = 75 ∧
      SleepAnalyzer.calculateSleepQualityScore (fun q => q) [] = 0 ∧ (75 : ℚ) ≠ 0 :=
  ⟨rfl, rfl, by norm_num⟩

/-- Claim C9 (amended): for every entry list and week start,
`generateWeeklyReport` sets `keyMetrics.consistencyScore` to the hardcoded
placeholder `75`; it is neither recomputed from the entries nor taken from
any externally supplied score. -/
theorem report_consistencyScore_is_placeholder (entries : List SleepEntry) (startDate : ℤ) :
    (ReportGenerator.generateWeeklyReport entries startDate).keyMetrics.consistencyScore = 75 :=
  rfl

/-- Inserting one entry grows the sorted list by one. -/
theorem insertByDate_length (e : SleepEntry) (l : List SleepEntry) :
    (SleepTracker.insertByDate e l).length = l.length + 1 := by
  induction l with
  | nil => rfl
  | cons x xs ih =>
    by_cases h : e.date ≤ x.date <;> simp [SleepTracker.insertByDate, h, ih]

/-- The by-date sort preserves length. -/
theorem sortByDate_length (l : List SleepEntry) :
    (SleepTracker.sortByDate l).length = l.length := by
  induction l with
  | nil => rfl
  | cons x xs ih => simp [SleepTracker.sortByDate, insertByDate_length, ih]

/-- With `consistencyScore = 0` in the analysis, the generated insight has
quality score 0, the high-priority sleep-schedule recommendation, and risk
level high, whatever the metrics are. -/
theorem generateInsights_zero_consistency (m : SleepConsistencyMetrics) (och : ℚ)
    (rl : RecLevel) (entries : List SleepEntry) :
    (SleepAnalyzer.generateMentalHealthInsights ⟨m, och, 0, rl⟩ entries).sleepQualityScore = 0 ∧
      (SleepAnalyzer.generateMentalHealthInsights ⟨m, och, 0, rl⟩ entries).riskLevel =
        RiskLevel.high ∧
      ∃ r ∈ (SleepAnalyzer.generateMentalHealthInsights ⟨m, och, 0, rl⟩ entries).recommendations,
        r.category = Category.sleepSchedule ∧ r.priority = Level.high := by
  unfold SleepAnalyzer.generateMentalHealthInsights
  refine ⟨rfl, ?_, ?_⟩
  · have h50 : (0 : ℚ) < 50 := by norm_num
    simp [h50]
  · have h60 : (0 : ℚ) < 60 := by norm_num
    simp only [h60, if_true, if_pos]
    exact ⟨_, List.mem_append_left _ (List.mem_append_left _
      (List.mem_append_left _ (List.mem_cons_self _ _))), rfl, rfl⟩

/-- Claim C10: `getHealthInsights` constructs the analysis it hands to the
insight generator with `consistencyScore = 0`; consequently, for every
non-empty entry collection (any configured target duration, any square
root), the returned insight has `sleepQualityScore = 0`, contains the
high-priority sleep-schedule recommendation, and has risk level high. -/
theorem getHealthInsights_always_high_risk (mathSqrt : ℚ → ℚ) (target : ℚ)
    (entries : List SleepEntry) (h : entries ≠ []) :
    (SleepTracker.getHealthInsights mathSqrt target entries).sleepQualityScore = 0 ∧
      (SleepTracker.getHealthInsights mathSqrt target entries).riskLevel = RiskLevel.high ∧
      ∃ r ∈ (SleepTracker.getHealthInsights mathSqrt target entries).recommendations,
        r.category = Category.sleepSchedule ∧ r.priority = Level.high := by
  unfold SleepTracker.getHealthInsights
  rw [if_neg (by
    simp only [SleepTracker.getSleepEntries, sortByDate_length, List.length_eq_zero]
    exact h)]
  exact generateInsights_zero_consistency _ _ _ _

/-- Witness for the facade claim at a concrete one-entry collection. -/
theorem getHealthInsights_high_risk_witness :
    (SleepTracker.getHealthInsights (fun q => q) 8
        [⟨"w", 0, "", "", false, some 8⟩]).sleepQualityScore = 0 ∧
      (SleepTracker.getHealthInsights (fun q => q) 8
        [⟨"w", 0, "", "", false, some 8⟩]).riskLevel = RiskLevel.high ∧
      ∃ r ∈ (SleepTracker.getHealthInsights (fun q => q) 8
          [⟨"w", 0, "", "", false, some 8⟩]).recommendations,
        r.category = Category.sleepSchedule ∧ r.priority = Level.high :=
  getHealthInsights_always_high_risk (fun q => q) 8 _ (by simp)

/-- Claim C8 counterexample: `"aa:bb"` does not match the `HH:MM` grammar,
yet `calculateDuration("aa:bb", "06:45")` raises no error of any kind — it
silently returns the NaN value. -/
theorem calculateDuration_silent_on_malformed :
    matchesTime24 "aa:bb" = false ∧
      DateUtils.calculateDuration "aa:bb" "06:45" = Except.ok none :=
  ⟨by decide, by decide⟩

/-- Claim C8 (amended): well-formed `HH:MM` pairs return the minute
difference (plus 1440 when negative, for the overnight wrap) divided by 60
— `parseDuration("22:30","06:45") = 8.25` and
`parseDuration("23:00","01:00") = 2` — but a malformed time string does not
raise a `ParseError`: `calculateDuration` silently yields NaN for it, and
the only throwing parser, the 12-hour normalizer `formatTimeTo24Hour` of
src/unnamed/part_000, rejects every string without an `AM`/`PM` marker,
including valid 24-hour `HH:MM` strings, while accepting marked ones. -/
theorem calculateDuration_amended_behaviour :
    DateUtils.calculateDuration "22:30" "06:45" = Except.ok (some (33 / 4)) ∧
      DateUtils.calculateDuration "23:00" "01:00" = Except.ok (some 2) ∧
      DateUtils.calculateDuration "aa:bb" "06:45" = Except.ok none ∧
      DateUtilsAlt.formatTimeTo24Hour "22:30" =
        Except.error (JsError.error "Invalid time format. Expected HH:mm AM/PM") ∧
      DateUtilsAlt.formatTimeTo24Hour "10:30 PM" = Except.ok "22:30" := by
  refine ⟨?_, ?_, by decide, by decide, by decide⟩
  · have h1 : DateUtils.formatTimeTo24Hour "22:30" = Except.ok "22:30" := by decide
    have h2 : DateUtils.formatTimeTo24Hour "06:45" = Except.ok "06:45" := by decide
    have s1 : (jsSplit "22:30" ':').map jsNumber = [some 22, some 30] := by decide
    have s2 : (jsSplit "06:45" ':').map jsNumber = [some 6, some 45] := by decide
    unfold DateUtils.calculateDuration
    rw [h1, h2]
    simp only [s1, s2]
    norm_num [jsAdd, jsMul, jsSub, jsDiv, jsLt]
  · have h1 : DateUtils.formatTimeTo24Hour "23:00" = Except.ok "23:00" := by decide
    have h2 : DateUtils.formatTimeTo24Hour "01:00" = Except.ok "01:00" := by decide
    have s1 : (jsSplit "23:00" ':').map jsNumber = [some 23, some 0] := by decide
    have s2 : (jsSplit "01:00" ':').map jsNumber = [some 1, some 0] := by decide
    unfold DateUtils.calculateDuration
    rw [h1, h2]
    simp only [s1, s2]
    norm_num [jsAdd, jsMul, jsSub, jsDiv, jsLt]
